import Mathlib

/-!
Shallow embedding of the core logic of the Dashagent repository
(src/Aidash95-master): the webhook dispatch path of pages/record.py
(send_to_webhook, send_to_multiple_webhooks) and the project-page
cache/auto-load logic of pages/10_Project_Management.py
(auto_load_project_data, render_add_project_tab, save_project_changes),
together with a spec-modelled sheet cache for the sheets manager whose
source (utils/gsheet_manager.py) is not part of the sources.
-/

/-- Serialized webhook payload as far as the dispatch control flow observes
it: the byte size of its JSON serialization (record.py line 434) and whether
json.dumps succeeds on it (a payload holding a non-JSON-serializable object
makes json.dumps at line 433 raise TypeError). -/
structure Payload where
  size : Nat
  encodable : Bool
deriving DecidableEq

/-- Outcome of one requests.post call (record.py line 458) in the retry loop.
In the requests library SSLError is a subclass of ConnectionError, so SSL
failures follow the connError path both in the loop (line 470) and in the
handler ladder (line 563, reached before the SSLError clause at line 576,
which is therefore dead code); connError covers both. otherExc stands for
any other exception raised by the post call. -/
inductive SendOutcome
  | timeout
  | connError
  | response (status : Nat) (text : String)
  | otherExc (name : String)
deriving DecidableEq

/-- External collaborators of send_to_webhook: the rate limiter
(rate_limiter.check_rate_limit), the validator
(WebhookValidator.validate_webhook_payload), the sanitizer
(WebhookValidator.sanitize_payload) and the network transport. The
transport is keyed by webhook type (which determines the target URL) and
by the attempt index. -/
structure Env where
  rateOk : Bool
  rateMsg : String
  validOk : Bool
  validErrors : List String
  sanitize : Payload → Payload
  transport : String → Nat → SendOutcome

/-- Per-endpoint counters st.session_state.webhook_stats[t]
(record.py line 287). -/
structure Stats where
  sent : Nat
  success : Nat
  errors : Nat
deriving DecidableEq

/-- One stored element of st.session_state.webhook_responses: the union of
the keys of the response_data dictionary (lines 476-486) and of the
error_data dictionaries of the handlers (lines 511-615) that the claims
observe. Keys absent from a given dictionary are modelled as none. The
timestamp and url keys (wall clock and a constant of the call) and the
debug-only keys (traceback, connection_error, timeout_duration) are not
modelled. -/
structure HistEntry where
  error : Option String := none
  webhookType : String
  statusCode : Option Nat := none
  success : Option Bool := none
  payloadSize : Option Nat := none
  responseText : Option String := none
  attemptCount : Option Nat := none
  validationPassed : Option Bool := none
  validationErrors : List String := []
deriving DecidableEq

/-- The dispatch-relevant slice of st.session_state: the bounded response
history and the per-endpoint counters. -/
structure WState where
  responses : List HistEntry
  stats : String → Stats

/-- Calls send_to_webhook makes to its collaborators, in program order;
sendAttempt k is the requests.post call of attempt k and sleep is the
time.sleep between retries. -/
inductive Ev
  | rateCheck
  | validate
  | sanitize
  | sizeCheck
  | sendAttempt (k : Nat)
  | sleep (secs : Nat)
deriving DecidableEq

/-- An exception escaping send_to_webhook to its caller: the KeyError of the
URL lookup at line 415 (which sits before the try block) or the
AttributeError raised when the except clause at line 589 evaluates
json.JSONEncodeError, an attribute the json module does not have. -/
inductive PyExc
  | keyError (key : String)
  | attributeError (attr : String)
deriving DecidableEq

/-- What the retry loop propagates when no attempt got a response. -/
inductive RaiseKind
  | timeout
  | connError
  | otherExc (name : String)
deriving DecidableEq

/-- Result of the retry loop: either an HTTP response (with the index of the
attempt that obtained it) or an exception escaping the loop. -/
inductive LoopRes
  | gotResponse (status : Nat) (text : String) (attemptIdx : Nat)
  | raised (k : RaiseKind)
deriving DecidableEq

def max_retries : Nat := 3

def retry_delay : Nat := 1

def max_payload_size : Nat := 10 * 1024 * 1024

def history_cap : Nat := 20

/-- WEBHOOK_URLS (record.py lines 66-77). -/
def webhook_urls : List (String × String) :=
  [("audio", "https://agentonline-u29564.vm.elestio.app/webhook-test/audio-files"),
   ("books", "https://agentonline-u29564.vm.elestio.app/webhook-test/books-content"),
   ("lectures", "https://agentonline-u29564.vm.elestio.app/webhook-test/lectures-education"),
   ("podcasts", "https://agentonline-u29564.vm.elestio.app/webhook-test/podcasts-episodes"),
   ("notes", "https://agentonline-u29564.vm.elestio.app/webhook-test/notes-thoughts"),
   ("documents", "https://agentonline-u29564.vm.elestio.app/webhook-test/documents-files"),
   ("videos", "https://agentonline-u29564.vm.elestio.app/webhook-test/videos-content"),
   ("images", "https://agentonline-u29564.vm.elestio.app/webhook-test/images-photos"),
   ("research", "https://agentonline-u29564.vm.elestio.app/webhook-test/research-data"),
   ("meetings", "https://agentonline-u29564.vm.elestio.app/webhook-test/meetings-records")]

/-- The keys of CONTENT_TYPES (record.py lines 80-151). -/
def content_types : List String :=
  ["audio", "books", "lectures", "podcasts", "notes",
   "documents", "videos", "images", "research", "meetings"]

/-- The for-attempt-in-range(max_retries) retry loop (record.py lines
456-473): a response breaks the loop at once; Timeout and ConnectionError
sleep retry_delay * (attempt + 1) and retry, except on the last attempt,
where they re-raise; any other exception propagates immediately. The
argument counts the iterations left, so the current attempt index is
max_retries minus it; the zero case is unreachable from the initial call
with max_retries. -/
def sendLoop (transport : Nat → SendOutcome) : Nat → List Ev × LoopRes
  | 0 => ([], .raised .timeout)
  | r + 1 =>
    let attempt := max_retries - (r + 1)
    match transport attempt with
    | .response st tx => ([.sendAttempt attempt], .gotResponse st tx attempt)
    | .timeout =>
      if r = 0 then ([.sendAttempt attempt], .raised .timeout)
      else
        let rest := sendLoop transport r
        (.sendAttempt attempt :: .sleep (retry_delay * (attempt + 1)) :: rest.1, rest.2)
    | .connError =>
      if r = 0 then ([.sendAttempt attempt], .raised .connError)
      else
        let rest := sendLoop transport r
        (.sendAttempt attempt :: .sleep (retry_delay * (attempt + 1)) :: rest.1, rest.2)
    | .otherExc n => ([.sendAttempt attempt], .raised (.otherExc n))

def validation_failed_message : String := "Validation failed"

def too_large_message : String := "Payload too large (max 10MB)"

def timeout_message : String :=
  "Request timed out after 30 seconds. Please check your connection."

def conn_error_message : String :=
  "Could not connect to webhook. Please check the URL and your internet connection."

def success_message (wt : String) : String :=
  "Successfully sent to " ++ wt ++ " webhook!"

def server_rate_limited_message : String :=
  "Rate limited by server. Please try again later."

def server_error_message (code : Nat) : String :=
  "Server error (" ++ toString code ++ "). Please try again later."

def client_error_message (code : Nat) (text : String) : String :=
  "Request error (" ++ toString code ++ "): " ++ text.take 100

def unexpected_response_message (code : Nat) : String :=
  "Unexpected response (" ++ toString code ++ ")"

/-- response_data (record.py lines 476-486): stored after an HTTP response
of any status; response_text is None for an empty body and otherwise the
body truncated to 500 characters. -/
def responseEntry (wt : String) (status : Nat) (text : String)
    (psize attemptIdx : Nat) : HistEntry :=
  { error := none, webhookType := wt, statusCode := some status,
    success := some (status == 200), payloadSize := some psize,
    responseText := if text = "" then none else some (text.take 500),
    attemptCount := some (attemptIdx + 1), validationPassed := some true }

/-- error_data of the ValidationError handler (lines 511-519). -/
def validationEntry (wt : String) (errs : List String) : HistEntry :=
  { error := some "Validation failed", webhookType := wt,
    validationPassed := some false, validationErrors := errs }

/-- error_data of the PayloadTooLargeError handler (lines 525-532). -/
def tooLargeEntry (wt : String) (psize : Nat) : HistEntry :=
  { error := some "Payload too large", webhookType := wt,
    payloadSize := some psize }

/-- error_data of the RateLimitError handler (lines 538-544). -/
def rateLimitEntry (wt : String) : HistEntry :=
  { error := some "Rate limit exceeded", webhookType := wt }

/-- error_data of the Timeout handler (lines 550-557); it carries no
attempt_count key, so attemptCount is none. -/
def timeoutEntry (wt : String) : HistEntry :=
  { error := some "Request timeout", webhookType := wt }

/-- error_data of the ConnectionError handler (lines 563-570); SSL errors
also land here since SSLError subclasses ConnectionError. -/
def connErrorEntry (wt : String) : HistEntry :=
  { error := some "Connection error", webhookType := wt }

def bumpSent (st : String → Stats) (t : String) : String → Stats :=
  fun u => if u = t then { st t with sent := (st t).sent + 1 } else st u

def bumpSuccess (st : String → Stats) (t : String) : String → Stats :=
  fun u => if u = t then { st t with success := (st t).success + 1 } else st u

def bumpErrors (st : String → Stats) (t : String) : String → Stats :=
  fun u => if u = t then { st t with errors := (st t).errors + 1 } else st u

/-- Shallow embedding of send_to_webhook (record.py lines 412-615). The URL
lookup (line 415) sits before the try block, so an unknown webhook type
makes the whole call raise KeyError. Inside the try, in program order:
rate-limit check (419-422), payload validation (425-427), sanitize (430),
json.dumps and the 10MB size check (433-438), the sent counter increment
(450), the retry loop (456-473), then storage of response_data with
truncation of the history to the last 20 entries (488-490) and the
status-code dispatch (492-509). The except ladder handles ValidationError,
PayloadTooLargeError and RateLimitError (each storing its error_data
without truncating the history and bumping the errors counter), then
Timeout and ConnectionError (the latter also catching SSLError); any other
exception reaches the clause naming json.JSONEncodeError, an attribute the
json module does not have, so evaluating that clause raises AttributeError,
no entry is stored, and the final except Exception clause never runs.
Returns the (success, message, result) triple or the escaping exception,
the collaborator-call log, and the updated session state. -/
def send_to_webhook (urls : List (String × String)) (env : Env) (wt : String)
    (p : Payload) (s : WState) :
    Except PyExc (Bool × String × HistEntry) × List Ev × WState :=
  match urls.lookup wt with
  | none => (.error (.keyError wt), [], s)
  | some _url =>
    if !env.rateOk then
      let e := rateLimitEntry wt
      (.ok (false, env.rateMsg, e), [.rateCheck],
       ⟨e :: s.responses, bumpErrors s.stats wt⟩)
    else if !env.validOk then
      let e := validationEntry wt env.validErrors
      (.ok (false, validation_failed_message, e), [.rateCheck, .validate],
       ⟨e :: s.responses, bumpErrors s.stats wt⟩)
    else
      let p1 := env.sanitize p
      if !p1.encodable then
        (.error (.attributeError "JSONEncodeError"),
         [.rateCheck, .validate, .sanitize], s)
      else if p1.size > max_payload_size then
        let e := tooLargeEntry wt p1.size
        (.ok (false, too_large_message, e),
         [.rateCheck, .validate, .sanitize, .sizeCheck],
         ⟨e :: s.responses, bumpErrors s.stats wt⟩)
      else
        let stats1 := bumpSent s.stats wt
        let gateLog : List Ev := [.rateCheck, .validate, .sanitize, .sizeCheck]
        match sendLoop (env.transport wt) max_retries with
        | (lg, .gotResponse status text attemptIdx) =>
          let e := responseEntry wt status text p1.size attemptIdx
          let resp1 := (e :: s.responses).take history_cap
          if status = 200 then
            (.ok (true, success_message wt, e), gateLog ++ lg,
             ⟨resp1, bumpSuccess stats1 wt⟩)
          else if status = 429 then
            (.ok (false, server_rate_limited_message, e), gateLog ++ lg,
             ⟨resp1, bumpErrors stats1 wt⟩)
          else if status ≥ 500 then
            (.ok (false, server_error_message status, e), gateLog ++ lg,
             ⟨resp1, bumpErrors stats1 wt⟩)
          else if status ≥ 400 then
            (.ok (false, client_error_message status text, e), gateLog ++ lg,
             ⟨resp1, bumpErrors stats1 wt⟩)
          else
            (.ok (false, unexpected_response_message status, e), gateLog ++ lg,
             ⟨resp1, bumpErrors stats1 wt⟩)
        | (lg, .raised .timeout) =>
          let e := timeoutEntry wt
          (.ok (false, timeout_message, e), gateLog ++ lg,
           ⟨e :: s.responses, bumpErrors stats1 wt⟩)
        | (lg, .raised .connError) =>
          let e := connErrorEntry wt
          (.ok (false, conn_error_message, e), gateLog ++ lg,
           ⟨e :: s.responses, bumpErrors stats1 wt⟩)
        | (lg, .raised (.otherExc _n)) =>
          (.error (.attributeError "JSONEncodeError"), gateLog ++ lg,
           ⟨s.responses, stats1⟩)

/-- The data field of one entry of the result dictionary of
send_to_multiple_webhooks: the dictionary returned as third component by
send_to_webhook, the validation_errors dictionary of the uniform
up-front-validation failure, the invalid-type error dictionary, or the
error dictionary built when a per-endpoint exception is caught. -/
inductive FanData
  | entry (e : HistEntry)
  | validationFailure (errs : List String)
  | invalidType
  | caught (excName : String)
deriving DecidableEq

/-- One value of the result dictionary of send_to_multiple_webhooks
(success, message, data keys). -/
structure FanResult where
  success : Bool
  message : String
  data : FanData
deriving DecidableEq

/-- Return value of send_to_multiple_webhooks: the single-key error
dictionary for an empty request list (record.py line 622), or the
per-endpoint result dictionary, modelled as an association list in request
order. -/
inductive FanOut
  | noTypes
  | results (m : List (String × FanResult))
deriving DecidableEq

def fan_validation_message (errs : List String) : String :=
  "Validation failed: " ++ String.intercalate "; " (errs.take 3) ++ "..."

def invalid_type_message (wt : String) : String :=
  "Invalid webhook type: " ++ wt

def caught_message (wt : String) : String :=
  "Error sending to " ++ wt

def excName : PyExc → String
  | .keyError _ => "KeyError"
  | .attributeError _ => "AttributeError"

/-- Shallow embedding of send_to_multiple_webhooks (record.py lines
617-656): an empty type list yields the single-key error dictionary; the
payload is validated once up front (lines 624-632) and, when invalid, every
requested endpoint gets the same failure result and nothing is dispatched;
otherwise the endpoints are processed in order, each type absent from
CONTENT_TYPES getting an invalid-type failure, each other type running
send_to_webhook with the session state threaded through, and any exception
escaping a single dispatch being caught and recorded for that endpoint
only (lines 648-654). The up-front validator call is wrapped in
try/except in the source; the validator collaborator is total here, so
that handler has no counterpart. -/
def send_to_multiple_webhooks (urls : List (String × String)) (env : Env)
    (wts : List String) (p : Payload) (s : WState) :
    FanOut × List Ev × WState :=
  if wts = [] then (.noTypes, [], s)
  else if !env.validOk then
    (.results (wts.map fun wt =>
        (wt, ⟨false, fan_validation_message env.validErrors,
              .validationFailure env.validErrors⟩)),
     [.validate], s)
  else
    let step := fun (acc : List (String × FanResult) × List Ev × WState) (wt : String) =>
      if wt ∈ content_types then
        match send_to_webhook urls env wt p acc.2.2 with
        | (.ok (succ, msg, d), lg, s2) =>
          (acc.1 ++ [(wt, ⟨succ, msg, .entry d⟩)], acc.2.1 ++ lg, s2)
        | (.error ex, lg, s2) =>
          (acc.1 ++ [(wt, ⟨false, caught_message wt, .caught (excName ex)⟩)],
           acc.2.1 ++ lg, s2)
      else
        (acc.1 ++ [(wt, ⟨false, invalid_type_message wt, .invalidType⟩)],
         acc.2.1, acc.2.2)
    let out := wts.foldl step ([], [.validate], s)
    (.results out.1, out.2.1, out.2.2)

/-- A tabular dataset as the pages see it: column names and rows. The
pandas df.empty test used by the pages is true exactly when there are no
rows. -/
structure DataFrame where
  cols : List String
  rows : List (List String)
deriving DecidableEq

def DataFrame.empty (df : DataFrame) : Bool := df.rows.isEmpty

def cache_ttl_seconds : Nat := 300

/-- The project-page slice of st.session_state
(10_Project_Management.py lines 56-68): a key absent from session state
and a key set to None are both modelled as none. -/
structure PMState where
  autoLoadEnabled : Bool
  projectData : Option DataFrame
  lastAutoLoad : Option Nat
  sheetUrl : String
  worksheetName : String
deriving DecidableEq

/-- Shallow embedding of auto_load_project_data (10_Project_Management.py
lines 70-111). Returns the new state and whether get_sheet_data was
called. The collaborator stands for sheets_manager.get_sheet_data called
with use_cache=True (line 92-96); it receives the sheet url and the
worksheet name (the source passes None for an empty name; that translation
belongs to the collaborator here) and returns the dataframe or None. The
source compares (now - last).total_seconds() < 300, which also holds for a
last timestamp in the future (negative difference), matching truncated Nat
subtraction. On a None or empty dataframe only a warning is shown and the
state is unchanged (lines 107-108). -/
def auto_load_project_data
    (get : String → String → Bool → Option DataFrame)
    (now : Nat) (s : PMState) : PMState × Bool :=
  if !s.autoLoadEnabled then (s, false)
  else if (match s.projectData, s.lastAutoLoad with
           | some _, some t => decide (now - t < cache_ttl_seconds)
           | _, _ => false) then (s, false)
  else if s.sheetUrl = "" then (s, false)
  else
    match get s.sheetUrl s.worksheetName true with
    | some df =>
      if !df.empty then
        ({ s with projectData := some df, lastAutoLoad := some now }, true)
      else (s, true)
    | none => (s, true)

/-- Modelled from the spec: utils/gsheet_manager.py, the sheets manager
whose get_sheet_data, append_row, update_sheet_data, clear_cache and
get_cache_info the pages call, is not under src/. Following spec section 3
and 4.1: a cache keyed by (source identifier, worksheet name), each entry
holding the table and its fetch time; an entry is fresh while
now - fetched_at is below the TTL of 300 seconds. -/
structure SheetCache where
  entries : List ((String × Option String) × DataFrame × Nat)
deriving DecidableEq

def SheetCache.lookupEntry (c : SheetCache) (k : String × Option String) :
    Option (DataFrame × Nat) :=
  (c.entries.find? (fun e => e.1 == k)).map (fun e => e.2)

/-- Modelled from the spec: get_sheet_data per spec section 4.1 get. If
use_cache holds and a fresh entry exists for the key, it is returned with
no remote fetch; otherwise the table is fetched from the remote source and
stored as a new entry for the key. Returns the table, the cache after the
call, and the number of remote fetches performed (0 or 1). -/
def SheetCache.get_sheet_data (c : SheetCache)
    (remote : String × Option String → DataFrame) (now : Nat)
    (k : String × Option String) (use_cache : Bool) :
    DataFrame × SheetCache × Nat :=
  let cached :=
    match c.lookupEntry k with
    | some (df, t) =>
      if use_cache && decide (now - t < cache_ttl_seconds) then some df else none
    | none => none
  match cached with
  | some df => (df, c, 0)
  | none =>
    let df := remote k
    (df, ⟨(k, df, now) :: c.entries.filter (fun e => !(e.1 == k))⟩, 1)

/-- Modelled from the spec: append_row per spec section 4.1 appendRow:
appends one row remotely; on success it invalidates the cache entry for
the key and returns true; it returns false on any remote failure, leaving
the cache unchanged. remoteOk stands for the outcome of the remote append. -/
def SheetCache.append_row (c : SheetCache) (remoteOk : Bool)
    (k : String × Option String) : Bool × SheetCache :=
  if remoteOk then (true, ⟨c.entries.filter (fun e => !(e.1 == k))⟩)
  else (false, c)

/-- Modelled from the spec: update_sheet_data per spec section 4.1
updateTable: replaces the remote table wholesale; same
invalidate-on-success contract as appendRow. -/
def SheetCache.update_sheet_data (c : SheetCache) (remoteOk : Bool)
    (k : String × Option String) : Bool × SheetCache :=
  if remoteOk then (true, ⟨c.entries.filter (fun e => !(e.1 == k))⟩)
  else (false, c)

/-- A value of the Add Project form (10_Project_Management.py lines
536-555): text and select inputs give strings, number inputs numbers
(the numeric magnitude is irrelevant to the claims, so modelled as Nat),
date inputs date objects. -/
inductive FormValue
  | str (s : String)
  | num (n : Nat)
  | date (y m d : Nat)
deriving DecidableEq

/-- Python truthiness of a form value as tested by the required-fields
check (not form_data.get(field), line 561): empty strings and zero are
falsy, date objects are always truthy. -/
def FormValue.truthy : FormValue → Bool
  | .str s => !(s == "")
  | .num n => !(n == 0)
  | .date _ _ _ => true

def required_fields : List String :=
  ["Project Name", "Status", "Start Date", "Due Date"]

def isinstance_type_error_message : String :=
  "TypeError: isinstance() arg 2 must be a type or tuple of types"

/-- The test isinstance(value, datetime.date) at line 570 of
10_Project_Management.py. The module does from datetime import datetime
(line 5), so the name datetime denotes the class datetime.datetime, and
datetime.date is then the instance method date of that class, not a type;
isinstance therefore raises TypeError for every value. -/
def isinstance_datetime_date (_v : FormValue) : Except String Bool :=
  .error isinstance_type_error_message

/-- Building new_row (lines 567-572): for each column of the loaded
dataframe, fetch the form value (defaulting to the empty string) and run
the isinstance date test before appending; the strftime branch is
unreachable because the test raises. -/
def buildNewRow (formData : String → Option FormValue) :
    List String → Except String (List FormValue)
  | [] => .ok []
  | c :: cs =>
    let value := (formData c).getD (.str "")
    match isinstance_datetime_date value with
    | .error e => .error e
    | .ok _ =>
      match buildNewRow formData cs with
      | .error e => .error e
      | .ok rest => .ok (value :: rest)

/-- Outcome of a submitted Add Project form. -/
inductive AddOutcome
  | missingFieldsError (fields : List String)
  | errorAdding (msg : String)
  | appendReached (ok : Bool)
deriving DecidableEq

/-- The submitted branch of render_add_project_tab (10_Project_Management.py
lines 559-587): the required-fields check, then the row build inside try
(whose exceptions land in the handler at line 586), then the call to
sheets_manager.append_row. appendOk stands for the append outcome; the
returned Bool reports whether append_row was called. -/
def add_project_submit (cols : List String)
    (formData : String → Option FormValue) (appendOk : Bool) :
    AddOutcome × Bool :=
  let missing := required_fields.filter
    (fun f => !((formData f).getD (.str "")).truthy)
  if !missing.isEmpty then (.missingFieldsError missing, false)
  else
    match buildNewRow formData cols with
    | .error e => (.errorAdding ("Error adding project: " ++ e), false)
    | .ok _row => (.appendReached appendOk, true)

/-- Attempt indices of the network sends recorded in a collaborator log. -/
def sendEvents (l : List Ev) : List Nat :=
  l.filterMap fun e => match e with | .sendAttempt k => some k | _ => none

/-- The history entry of the result triple, when the call returned one. -/
def dispatchEntry
    (o : Except PyExc (Bool × String × HistEntry) × List Ev × WState) :
    Option HistEntry :=
  match o.1 with
  | .ok (_, _, e) => some e
  | .error _ => none

/-- The success flag of the result triple, when the call returned one. -/
def dispatchSuccess
    (o : Except PyExc (Bool × String × HistEntry) × List Ev × WState) :
    Option Bool :=
  match o.1 with
  | .ok (b, _, _) => some b
  | .error _ => none

/-- The session state after a sequence of send_to_webhook calls, one per
environment in the list, in order. -/
def dispatchFold (urls : List (String × String)) (wt : String) (p : Payload)
    (envs : List Env) (s : WState) : WState :=
  envs.foldl (fun st env => (send_to_webhook urls env wt p st).2.2) s

/-- The response_data entry a call stores when its first send attempt
receives an HTTP response (used to describe histories of such calls);
arbitrary when the first attempt gets no response. -/
def firstResponseEntry (env : Env) (wt : String) (p : Payload) : HistEntry :=
  match env.transport wt 0 with
  | .response st tx => responseEntry wt st tx (env.sanitize p).size 0
  | _ => timeoutEntry wt

/-- The success flag recorded for one endpoint of a fan-out call. -/
def fanSuccess : FanOut → String → Option Bool
  | .noTypes, _ => none
  | .results m, t => (m.lookup t).map (fun r => r.success)

def initStats : String → Stats := fun _ => ⟨0, 0, 0⟩

/-- st.session_state right after initialize_session_state (record.py lines
272-294): empty history, all counters zero. -/
def initialWState : WState := ⟨[], initStats⟩

def samplePayload : Payload := ⟨1000, true⟩

/-- An environment whose gates all pass and whose transport answers 200 on
the first attempt for every endpoint. -/
def envOk : Env :=
  { rateOk := true, rateMsg := "OK", validOk := true, validErrors := [],
    sanitize := id, transport := fun _ _ => .response 200 "ok" }

/-- An environment whose validator rejects the payload. -/
def envInvalid : Env :=
  { envOk with validOk := false, validErrors := ["missing title"] }

/-- An environment whose transport times out on every attempt. -/
def envAllTimeout : Env :=
  { envOk with transport := fun _ _ => .timeout }

/-- An environment where both the rate limiter refuses and the validator
rejects the payload. -/
def envRateAndValidFail : Env :=
  { envOk with
      rateOk := false
      rateMsg := "Rate limit exceeded for user"
      validOk := false
      validErrors := ["missing title"] }

def sampleDF : DataFrame := ⟨["Project Name"], [["P1"]]⟩

def sampleKey : String × Option String := ("sheet1", none)

def sampleCache : SheetCache := ⟨[(sampleKey, sampleDF, 100)]⟩

theorem lookupEntry_filter_self
    (entries : List ((String × Option String) × DataFrame × Nat))
    (k : String × Option String) :
    SheetCache.lookupEntry ⟨entries.filter (fun e => !(e.1 == k))⟩ k = none := by
  unfold SheetCache.lookupEntry
  rw [List.find?_eq_none.mpr]
  · rfl
  · intro x hx
    have hx2 := (List.mem_filter.mp hx).2
    simp only [Bool.not_eq_true'] at hx2
    simp [hx2]

/-- C1: whenever append_row or update_sheet_data returns success, the cache
entry for the written key is invalidated, so the next get for that key
performs a remote fetch regardless of the TTL (for every current time);
this holds for both the append path and the update path. -/
theorem c1_write_invalidation (c : SheetCache) (remoteOk : Bool)
    (k : String × Option String)
    (remote : String × Option String → DataFrame) (now : Nat) :
    ((c.append_row remoteOk k).1 = true →
      (((c.append_row remoteOk k).2).get_sheet_data remote now k true).2.2 = 1) ∧
    ((c.update_sheet_data remoteOk k).1 = true →
      (((c.update_sheet_data remoteOk k).2).get_sheet_data remote now k true).2.2 = 1) := by
  constructor <;> intro h
  · cases remoteOk with
    | false => simp [SheetCache.append_row] at h
    | true =>
      simp [SheetCache.append_row, SheetCache.get_sheet_data,
        lookupEntry_filter_self]
  · cases remoteOk with
    | false => simp [SheetCache.update_sheet_data] at h
    | true =>
      simp [SheetCache.update_sheet_data, SheetCache.get_sheet_data,
        lookupEntry_filter_self]

/-- Witness for C1: a concrete cache holding an entry for the key fetched
at time 100; after a successful append or update, a get issued at the very
same time 100 (well within any TTL window) still fetches remotely. -/
theorem c1_write_invalidation_witness :
    (((sampleCache.append_row true sampleKey).2).get_sheet_data
        (fun _ => sampleDF) 100 sampleKey true).2.2 = 1 ∧
    (((sampleCache.update_sheet_data true sampleKey).2).get_sheet_data
        (fun _ => sampleDF) 100 sampleKey true).2.2 = 1 :=
  ⟨(c1_write_invalidation sampleCache true sampleKey (fun _ => sampleDF) 100).1 rfl,
   (c1_write_invalidation sampleCache true sampleKey (fun _ => sampleDF) 100).2 rfl⟩

/-- C9: two cached reads of the same key within the TTL window with
use_cache and no intervening write perform exactly one remote fetch in
total; and in the page-level auto-load, a second auto_load_project_data
call issued less than 300 seconds after a successful load returns with the
state unchanged and without calling get_sheet_data. -/
theorem c9_cache_freshness
    (remote : String × Option String → DataFrame) (c : SheetCache)
    (k : String × Option String) (now1 now2 : Nat)
    (get : String → String → Bool → Option DataFrame) (s : PMState)
    (df : DataFrame)
    (hmiss : c.lookupEntry k = none)
    (hfresh : now2 - now1 < cache_ttl_seconds)
    (hen : s.autoLoadEnabled = true)
    (hdata : s.projectData = none)
    (hurl : s.sheetUrl ≠ "")
    (hget : get s.sheetUrl s.worksheetName true = some df)
    (hne : df.empty = false) :
    ((c.get_sheet_data remote now1 k true).2.2 +
      (((c.get_sheet_data remote now1 k true).2.1).get_sheet_data
        remote now2 k true).2.2 = 1) ∧
    (auto_load_project_data get now1 s).2 = true ∧
    auto_load_project_data get now2 (auto_load_project_data get now1 s).1 =
      ((auto_load_project_data get now1 s).1, false) := by
  refine ⟨?_, ?_, ?_⟩
  · have h1 : c.get_sheet_data remote now1 k true =
        (remote k,
         ⟨(k, remote k, now1) :: c.entries.filter (fun e => !(e.1 == k))⟩, 1) := by
      simp [SheetCache.get_sheet_data, hmiss]
    rw [h1]
    simp [SheetCache.get_sheet_data, SheetCache.lookupEntry, List.find?_cons,
      hfresh]
  · simp [auto_load_project_data, hen, hdata, hurl, hget, hne]
  · simp [auto_load_project_data, hen, hdata, hurl, hget, hne, hfresh]

/-- Witness for C9: a concrete empty cache read twice 200 seconds apart,
and a concrete project page auto-loading at time 0 and again at time 200. -/
theorem c9_cache_freshness_witness :
    (((SheetCache.mk []).get_sheet_data (fun _ => sampleDF) 0 sampleKey true).2.2 +
      ((((SheetCache.mk []).get_sheet_data (fun _ => sampleDF) 0 sampleKey
          true).2.1).get_sheet_data (fun _ => sampleDF) 200 sampleKey true).2.2 = 1) ∧
    (auto_load_project_data (fun _ _ _ => some sampleDF) 0
        ⟨true, none, none, "sheet1", ""⟩).2 = true ∧
    auto_load_project_data (fun _ _ _ => some sampleDF) 200
        (auto_load_project_data (fun _ _ _ => some sampleDF) 0
          ⟨true, none, none, "sheet1", ""⟩).1 =
      ((auto_load_project_data (fun _ _ _ => some sampleDF) 0
          ⟨true, none, none, "sheet1", ""⟩).1, false) :=
  c9_cache_freshness (fun _ => sampleDF) ⟨[]⟩ sampleKey 0 200
    (fun _ _ _ => some sampleDF) ⟨true, none, none, "sheet1", ""⟩ sampleDF
    (by decide) (by decide) rfl rfl (by decide) rfl (by decide)

/-- C10: for every submitted Add Project form that passes the
required-fields check, given the loaded table has at least one column,
building the new row evaluates isinstance(value, datetime.date) with
datetime.date a method attribute of the imported datetime class rather
than a type, which raises TypeError for any value; the exception handler
reports an error and sheets_manager.append_row is never called. -/
theorem c10_isinstance_type_error (cols : List String)
    (formData : String → Option FormValue) (appendOk : Bool)
    (hcols : cols ≠ [])
    (hreq : required_fields.filter
      (fun f => !((formData f).getD (.str "")).truthy) = []) :
    add_project_submit cols formData appendOk =
      (.errorAdding ("Error adding project: " ++ isinstance_type_error_message),
       false) := by
  cases cols with
  | nil => exact absurd rfl hcols
  | cons c cs =>
    simp [add_project_submit, hreq, buildNewRow, isinstance_datetime_date]

/-- Witness for C10: a fully filled form over the standard project columns. -/
theorem c10_isinstance_type_error_witness :
    add_project_submit ["Project Name", "Description", "Status", "Start Date",
        "Due Date"] (fun _ => some (.str "x")) true =
      (.errorAdding ("Error adding project: " ++ isinstance_type_error_message),
       false) :=
  c10_isinstance_type_error _ _ _ (by decide) (by decide)

/-- An environment where only the rate limiter refuses. -/
def envRateFail : Env := { envOk with rateOk := false }

/-- Counterexample to C2 as stated: with a transport that always times
out, the dispatch fails after its retries, but the recorded result is the
timeout error dictionary, which carries no attempt_count key at all, so
no attempt_count of 3 is recorded. -/
theorem c2_counterexample :
    dispatchEntry (send_to_webhook webhook_urls envAllTimeout "audio"
        samplePayload initialWState) = some (timeoutEntry "audio") ∧
    (timeoutEntry "audio").attemptCount = none ∧
    (timeoutEntry "audio").attemptCount ≠ some 3 :=
  ⟨rfl, rfl, by decide⟩

/-- C2 amended: for any payload that passes all pre-send gates, if every
network send attempt raises a timeout, send_to_webhook makes exactly 3
send attempts with delay retry_delay * (attempt + 1) between them and then
returns a failure triple; the recorded result is the timeout error
dictionary, which carries no attempt_count key (so attempt_count of 3 is
not recorded; the history view later renders the missing key as 1). -/
theorem c2_retry_bound_amended (urls : List (String × String)) (env : Env)
    (wt url : String) (p : Payload) (s : WState)
    (hurl : urls.lookup wt = some url)
    (hrate : env.rateOk = true) (hvalid : env.validOk = true)
    (henc : (env.sanitize p).encodable = true)
    (hsize : (env.sanitize p).size ≤ max_payload_size)
    (htr : ∀ j, env.transport wt j = .timeout) :
    (send_to_webhook urls env wt p s).1 =
      .ok (false, timeout_message, timeoutEntry wt) ∧
    (send_to_webhook urls env wt p s).2.1 =
      [.rateCheck, .validate, .sanitize, .sizeCheck,
       .sendAttempt 0, .sleep (retry_delay * 1), .sendAttempt 1,
       .sleep (retry_delay * 2), .sendAttempt 2] ∧
    (timeoutEntry wt).attemptCount = none := by
  have e0 := htr 0
  have e1 := htr 1
  have e2 := htr 2
  refine ⟨?_, ?_, rfl⟩ <;>
    simp [send_to_webhook, hurl, hrate, hvalid, henc,
      show ¬(max_payload_size < (env.sanitize p).size) from not_lt.mpr hsize,
      sendLoop, max_retries, e0, e1, e2]

/-- Witness for C2 amended: the books endpoint with an always-timeout
transport. -/
theorem c2_retry_bound_amended_witness :
    (send_to_webhook webhook_urls envAllTimeout "books" samplePayload
        initialWState).1 = .ok (false, timeout_message, timeoutEntry "books") ∧
    (send_to_webhook webhook_urls envAllTimeout "books" samplePayload
        initialWState).2.1 =
      [.rateCheck, .validate, .sanitize, .sizeCheck,
       .sendAttempt 0, .sleep (retry_delay * 1), .sendAttempt 1,
       .sleep (retry_delay * 2), .sendAttempt 2] ∧
    (timeoutEntry "books").attemptCount = none :=
  c2_retry_bound_amended webhook_urls envAllTimeout "books"
    "https://agentonline-u29564.vm.elestio.app/webhook-test/books-content"
    samplePayload initialWState rfl rfl rfl rfl (by decide) (fun _j => rfl)

/-- Counterexample to C3 as stated: a call on which both the validator
rejects the payload and the rate limiter refuses. Were the gates evaluated
validate-first with a short circuit at the first failing gate, the
validator would be consulted on every call and the recorded failure here
would be the validation one; instead the collaborator log holds only the
rate-limit check, the validator is never consulted, and the recorded
failure is the rate-limit error dictionary. -/
theorem c3_counterexample :
    (send_to_webhook webhook_urls envRateAndValidFail "audio" samplePayload
        initialWState).2.1 = [.rateCheck] ∧
    Ev.validate ∉ (send_to_webhook webhook_urls envRateAndValidFail "audio"
        samplePayload initialWState).2.1 ∧
    dispatchEntry (send_to_webhook webhook_urls envRateAndValidFail "audio"
        samplePayload initialWState) = some (rateLimitEntry "audio") :=
  ⟨rfl, by decide, rfl⟩

/-- C3 amended: for every call with a configured URL, send_to_webhook
evaluates its gates in the order rate-check, then validate, then sanitize,
then size-check, then send-with-retry, and short-circuits at the first
gate that fails: the collaborator log is exactly the prefix of that order
up to the failing gate, and send attempts happen only after all four
gates pass. -/
theorem c3_gate_order_amended (urls : List (String × String)) (env : Env)
    (wt url : String) (p : Payload) (s : WState)
    (hurl : urls.lookup wt = some url) :
    (env.rateOk = false →
      (send_to_webhook urls env wt p s).2.1 = [.rateCheck]) ∧
    (env.rateOk = true → env.validOk = false →
      (send_to_webhook urls env wt p s).2.1 = [.rateCheck, .validate]) ∧
    (env.rateOk = true → env.validOk = true →
      (env.sanitize p).encodable = false →
      (send_to_webhook urls env wt p s).2.1 =
        [.rateCheck, .validate, .sanitize]) ∧
    (env.rateOk = true → env.validOk = true →
      (env.sanitize p).encodable = true →
      (env.sanitize p).size > max_payload_size →
      (send_to_webhook urls env wt p s).2.1 =
        [.rateCheck, .validate, .sanitize, .sizeCheck]) ∧
    (env.rateOk = true → env.validOk = true →
      (env.sanitize p).encodable = true →
      ¬((env.sanitize p).size > max_payload_size) →
      (send_to_webhook urls env wt p s).2.1 =
        [.rateCheck, .validate, .sanitize, .sizeCheck] ++
          (sendLoop (env.transport wt) max_retries).1) := by
  refine ⟨fun h1 => ?_, fun h1 h2 => ?_, fun h1 h2 h3 => ?_,
    fun h1 h2 h3 h4 => ?_, fun h1 h2 h3 h4 => ?_⟩
  · simp [send_to_webhook, hurl, h1]
  · simp [send_to_webhook, hurl, h1, h2]
  · simp [send_to_webhook, hurl, h1, h2, h3]
  · simp [send_to_webhook, hurl, h1, h2, h3, h4]
  · rcases hsl : sendLoop (env.transport wt) max_retries with ⟨lg, res⟩
    cases res with
    | gotResponse status text attemptIdx =>
      simp [send_to_webhook, hurl, h1, h2, h3, h4, hsl]
      split_ifs <;> rfl
    | raised k =>
      cases k <;> simp [send_to_webhook, hurl, h1, h2, h3, h4, hsl]

/-- Witness for C3 amended: the all-gates-pass branch at a concrete
environment whose transport answers immediately. -/
theorem c3_gate_order_amended_witness :
    (send_to_webhook webhook_urls envOk "audio" samplePayload
        initialWState).2.1 =
      [.rateCheck, .validate, .sanitize, .sizeCheck] ++
        (sendLoop (envOk.transport "audio") max_retries).1 :=
  (c3_gate_order_amended webhook_urls envOk "audio"
    "https://agentonline-u29564.vm.elestio.app/webhook-test/audio-files"
    samplePayload initialWState rfl).2.2.2.2 rfl rfl rfl (by decide)

/-- C4: on every call with a configured URL in which the rate limiter
refuses, validation fails, or the serialized payload exceeds 10 MiB, no
network send is issued, the sent counter of that endpoint is unchanged by
the call, and the error entry recorded at the head of the history carries
a tag naming the failing gate; the three gate tags are pairwise distinct
and differ from the transport-failure tags, so gate failures are
distinguishable from network failures. -/
theorem c4_pre_network_gates (urls : List (String × String)) (env : Env)
    (wt url : String) (p : Payload) (s : WState)
    (hurl : urls.lookup wt = some url) :
    (env.rateOk = false →
      sendEvents (send_to_webhook urls env wt p s).2.1 = [] ∧
      ((send_to_webhook urls env wt p s).2.2.stats wt).sent =
        (s.stats wt).sent ∧
      (send_to_webhook urls env wt p s).2.2.responses =
        rateLimitEntry wt :: s.responses) ∧
    (env.rateOk = true → env.validOk = false →
      sendEvents (send_to_webhook urls env wt p s).2.1 = [] ∧
      ((send_to_webhook urls env wt p s).2.2.stats wt).sent =
        (s.stats wt).sent ∧
      (send_to_webhook urls env wt p s).2.2.responses =
        validationEntry wt env.validErrors :: s.responses) ∧
    (env.rateOk = true → env.validOk = true →
      (env.sanitize p).encodable = true →
      (env.sanitize p).size > max_payload_size →
      sendEvents (send_to_webhook urls env wt p s).2.1 = [] ∧
      ((send_to_webhook urls env wt p s).2.2.stats wt).sent =
        (s.stats wt).sent ∧
      (send_to_webhook urls env wt p s).2.2.responses =
        tooLargeEntry wt (env.sanitize p).size :: s.responses) ∧
    ([(rateLimitEntry wt).error, (validationEntry wt env.validErrors).error,
      (tooLargeEntry wt (env.sanitize p).size).error,
      (timeoutEntry wt).error, (connErrorEntry wt).error]).Pairwise (· ≠ ·) := by
  refine ⟨fun h1 => ?_, fun h1 h2 => ?_, fun h1 h2 h3 h4 => ?_, ?_⟩
  · refine ⟨?_, ?_, ?_⟩ <;>
      simp [send_to_webhook, hurl, h1, sendEvents, bumpErrors]
  · refine ⟨?_, ?_, ?_⟩ <;>
      simp [send_to_webhook, hurl, h1, h2, sendEvents, bumpErrors]
  · refine ⟨?_, ?_, ?_⟩ <;>
      simp [send_to_webhook, hurl, h1, h2, h3, h4, sendEvents, bumpErrors]
  · simp [rateLimitEntry, validationEntry, tooLargeEntry, timeoutEntry,
      connErrorEntry]

/-- Witness for C4: the rate-limited branch at a concrete environment. -/
theorem c4_pre_network_gates_witness :
    sendEvents (send_to_webhook webhook_urls envRateFail "audio"
        samplePayload initialWState).2.1 = [] ∧
    ((send_to_webhook webhook_urls envRateFail "audio" samplePayload
        initialWState).2.2.stats "audio").sent =
      (initialWState.stats "audio").sent ∧
    (send_to_webhook webhook_urls envRateFail "audio" samplePayload
        initialWState).2.2.responses =
      rateLimitEntry "audio" :: initialWState.responses :=
  (c4_pre_network_gates webhook_urls envRateFail "audio"
    "https://agentonline-u29564.vm.elestio.app/webhook-test/audio-files"
    samplePayload initialWState rfl).1 rfl

/-- Helper: full outcome of a dispatch whose gates pass and whose transport
times out on every attempt. -/
theorem send_all_timeout (urls : List (String × String)) (env : Env)
    (wt url : String) (p : Payload) (s : WState)
    (hurl : urls.lookup wt = some url)
    (hrate : env.rateOk = true) (hvalid : env.validOk = true)
    (henc : (env.sanitize p).encodable = true)
    (hsize : ¬((env.sanitize p).size > max_payload_size))
    (htr : ∀ j, env.transport wt j = .timeout) :
    send_to_webhook urls env wt p s =
      (.ok (false, timeout_message, timeoutEntry wt),
       [.rateCheck, .validate, .sanitize, .sizeCheck, .sendAttempt 0,
        .sleep (retry_delay * 1), .sendAttempt 1, .sleep (retry_delay * 2),
        .sendAttempt 2],
       ⟨timeoutEntry wt :: s.responses, bumpErrors (bumpSent s.stats wt) wt⟩) := by
  have e0 := htr 0
  have e1 := htr 1
  have e2 := htr 2
  simp [send_to_webhook, hurl, hrate, hvalid, henc, hsize, sendLoop,
    max_retries, e0, e1, e2]

/-- Helper: full outcome of a dispatch whose gates pass and whose first
send attempt receives a 200 response. -/
theorem send_first_ok (urls : List (String × String)) (env : Env)
    (wt url : String) (p : Payload) (s : WState) (textR : String)
    (hurl : urls.lookup wt = some url)
    (hrate : env.rateOk = true) (hvalid : env.validOk = true)
    (henc : (env.sanitize p).encodable = true)
    (hsize : ¬((env.sanitize p).size > max_payload_size))
    (htr : env.transport wt 0 = .response 200 textR) :
    send_to_webhook urls env wt p s =
      (.ok (true, success_message wt,
        responseEntry wt 200 textR (env.sanitize p).size 0),
       [.rateCheck, .validate, .sanitize, .sizeCheck, .sendAttempt 0],
       ⟨(responseEntry wt 200 textR (env.sanitize p).size 0 ::
          s.responses).take history_cap,
        bumpSuccess (bumpSent s.stats wt) wt⟩) := by
  simp [send_to_webhook, hurl, hrate, hvalid, henc, hsize, sendLoop,
    max_retries, htr]

/-- Helper: when the retry loop obtains an HTTP response, the dispatch log
is the gate log followed by the loop log, the result triple carries the
response entry for the obtaining attempt, and the history is that entry
prepended and truncated to the cap, whatever the status code. -/
theorem send_response_spec (urls : List (String × String)) (env : Env)
    (wt url : String) (p : Payload) (s : WState)
    (status aidx : Nat) (text : String) (lg : List Ev)
    (hurl : urls.lookup wt = some url)
    (hrate : env.rateOk = true) (hvalid : env.validOk = true)
    (henc : (env.sanitize p).encodable = true)
    (hsize : ¬((env.sanitize p).size > max_payload_size))
    (hl : sendLoop (env.transport wt) max_retries =
      (lg, .gotResponse status text aidx)) :
    (send_to_webhook urls env wt p s).2.1 =
      [.rateCheck, .validate, .sanitize, .sizeCheck] ++ lg ∧
    dispatchEntry (send_to_webhook urls env wt p s) =
      some (responseEntry wt status text (env.sanitize p).size aidx) ∧
    (send_to_webhook urls env wt p s).2.2.responses =
      (responseEntry wt status text (env.sanitize p).size aidx ::
        s.responses).take history_cap := by
  refine ⟨?_, ?_, ?_⟩
  · simp [send_to_webhook, hurl, hrate, hvalid, henc, hsize, hl]
    split_ifs <;> rfl
  · simp [send_to_webhook, hurl, hrate, hvalid, henc, hsize, hl, dispatchEntry]
    split_ifs <;> rfl
  · simp [send_to_webhook, hurl, hrate, hvalid, henc, hsize, hl]
    split_ifs <;> rfl

/-- C7: the retry loop retries only on transport failures; whenever an
HTTP response is received at some attempt k below the retry bound (each
earlier attempt having failed on timeout or connection error), the loop
terminates at once with that response regardless of its status, the
dispatch performs exactly the send attempts 0 through k, and the recorded
result carries the response of attempt k. -/
theorem c7_retry_boundary (urls : List (String × String)) (env : Env)
    (wt url : String) (p : Payload) (s : WState) (k status : Nat)
    (text : String)
    (hurl : urls.lookup wt = some url)
    (hrate : env.rateOk = true) (hvalid : env.validOk = true)
    (henc : (env.sanitize p).encodable = true)
    (hsize : ¬((env.sanitize p).size > max_payload_size))
    (hk : k < max_retries)
    (hbefore : ∀ j, j < k →
      env.transport wt j = .timeout ∨ env.transport wt j = .connError)
    (hresp : env.transport wt k = .response status text) :
    sendEvents (send_to_webhook urls env wt p s).2.1 = List.range (k + 1) ∧
    dispatchEntry (send_to_webhook urls env wt p s) =
      some (responseEntry wt status text (env.sanitize p).size k) := by
  have hloop : ∃ lg, sendLoop (env.transport wt) max_retries =
      (lg, .gotResponse status text k) ∧ sendEvents lg = List.range (k + 1) := by
    have hk3 : k < 3 := hk
    interval_cases k
    · exact ⟨[.sendAttempt 0], by simp [sendLoop, max_retries, hresp], by decide⟩
    · rcases hbefore 0 (by norm_num) with h0 | h0
      · exact ⟨[.sendAttempt 0, .sleep 1, .sendAttempt 1],
          by simp [sendLoop, max_retries, retry_delay, h0, hresp], by decide⟩
      · exact ⟨[.sendAttempt 0, .sleep 1, .sendAttempt 1],
          by simp [sendLoop, max_retries, retry_delay, h0, hresp], by decide⟩
    · rcases hbefore 0 (by norm_num) with h0 | h0 <;>
        rcases hbefore 1 (by norm_num) with h1 | h1 <;>
        exact ⟨[.sendAttempt 0, .sleep 1, .sendAttempt 1, .sleep 2,
            .sendAttempt 2],
          by simp [sendLoop, max_retries, retry_delay, h0, h1, hresp], by decide⟩
  obtain ⟨lg, hl, hev⟩ := hloop
  have hs := send_response_spec urls env wt url p s status k text lg hurl
    hrate hvalid henc hsize hl
  refine ⟨?_, hs.2.1⟩
  have hsplit : sendEvents ([Ev.rateCheck, Ev.validate, Ev.sanitize,
      Ev.sizeCheck] ++ lg) = sendEvents lg := by
    simp [sendEvents]
  rw [hs.1, hsplit, hev]

/-- An environment whose transport times out once, then answers 503. -/
def envRetryThenServerError : Env :=
  { envOk with transport := fun _ j =>
      if j = 0 then .timeout else .response 503 "oops" }

/-- Witness for C7: a timeout on attempt 0 is retried, the 503 response of
attempt 1 ends the dispatch with no third attempt. -/
theorem c7_retry_boundary_witness :
    sendEvents (send_to_webhook webhook_urls envRetryThenServerError "audio"
        samplePayload initialWState).2.1 = List.range 2 ∧
    dispatchEntry (send_to_webhook webhook_urls envRetryThenServerError
        "audio" samplePayload initialWState) =
      some (responseEntry "audio" 503 "oops" 1000 1) :=
  c7_retry_boundary webhook_urls envRetryThenServerError "audio"
    "https://agentonline-u29564.vm.elestio.app/webhook-test/audio-files"
    samplePayload initialWState 1 503 "oops" rfl rfl rfl rfl (by decide)
    (by decide) (fun j hj => by interval_cases j; exact Or.inl rfl) rfl

/-- Counterexample to C5 as stated: 21 dispatch calls that all fail at the
validation gate leave 21 entries in the stored history, not 20, because
the truncation to the last 20 entries happens only on the path that
received an HTTP response, while the error handlers insert without
truncating. -/
theorem c5_counterexample :
    (dispatchFold webhook_urls "audio" samplePayload
        (List.replicate 21 envInvalid) initialWState).responses.length = 21 := by
  decide

/-- All gates pass and the first send attempt receives an HTTP response of
some status. -/
def respondsFirst (env : Env) (wt : String) (p : Payload) : Prop :=
  env.rateOk = true ∧ env.validOk = true ∧
  (env.sanitize p).encodable = true ∧
  ¬((env.sanitize p).size > max_payload_size) ∧
  ∃ status text, env.transport wt 0 = .response status text

theorem take_append_take {α : Type} (n : Nat) (A B : List α) :
    (A ++ B.take n).take n = (A ++ B).take n := by
  rw [List.take_append_eq_append_take, List.take_append_eq_append_take,
    List.take_take, min_eq_left (Nat.sub_le n A.length)]

/-- Helper: a gates-passing dispatch whose first attempt gets a response
prepends its response entry and truncates the history to the cap. -/
theorem dispatch_responses_step (urls : List (String × String)) (env : Env)
    (wt url : String) (p : Payload) (s : WState)
    (hurl : urls.lookup wt = some url)
    (h : respondsFirst env wt p) :
    (send_to_webhook urls env wt p s).2.2.responses =
      (firstResponseEntry env wt p :: s.responses).take history_cap := by
  obtain ⟨h1, h2, h3, h4, status, text, h5⟩ := h
  have hl : sendLoop (env.transport wt) max_retries =
      ([.sendAttempt 0], .gotResponse status text 0) := by
    simp [sendLoop, max_retries, h5]
  have hs := (send_response_spec urls env wt url p s status 0 text
    [.sendAttempt 0] hurl h1 h2 h3 h4 hl).2.2
  rw [hs]
  simp [firstResponseEntry, h5]

/-- Helper: the history after a sequence of gates-passing,
response-receiving dispatches, starting from a history within the cap, is
the reversed list of their response entries prepended to the initial
history and truncated to the cap. -/
theorem dispatchFold_responses (urls : List (String × String))
    (wt url : String) (p : Payload) (envs : List Env) (s : WState)
    (hurl : urls.lookup wt = some url)
    (hlen : s.responses.length ≤ history_cap)
    (hall : ∀ env ∈ envs, respondsFirst env wt p) :
    (dispatchFold urls wt p envs s).responses =
      ((envs.map (fun env => firstResponseEntry env wt p)).reverse ++
        s.responses).take history_cap := by
  induction envs generalizing s with
  | nil => simp [dispatchFold, List.take_of_length_le hlen]
  | cons env rest ih =>
    have hstep := dispatch_responses_step urls env wt url p s hurl
      (hall env (List.mem_cons_self _ _))
    have hlen1 : ((send_to_webhook urls env wt p s).2.2).responses.length ≤
        history_cap := by
      rw [hstep]
      simp
    have hrec := ih ((send_to_webhook urls env wt p s).2.2) hlen1
      (fun e he => hall e (List.mem_cons_of_mem _ he))
    calc (dispatchFold urls wt p (env :: rest) s).responses
        = (dispatchFold urls wt p rest
            ((send_to_webhook urls env wt p s).2.2)).responses := rfl
      _ = ((rest.map (fun e => firstResponseEntry e wt p)).reverse ++
            ((send_to_webhook urls env wt p s).2.2).responses).take
            history_cap := hrec
      _ = ((rest.map (fun e => firstResponseEntry e wt p)).reverse ++
            ((firstResponseEntry env wt p :: s.responses).take
              history_cap)).take history_cap := by rw [hstep]
      _ = ((rest.map (fun e => firstResponseEntry e wt p)).reverse ++
            (firstResponseEntry env wt p :: s.responses)).take history_cap :=
        take_append_take _ _ _
      _ = (((env :: rest).map (fun e => firstResponseEntry e wt p)).reverse ++
            s.responses).take history_cap := by
        simp [List.reverse_cons, List.append_assoc]

/-- C5 amended: the history is ordered most recent first, and after any
sequence of dispatch calls each of which received an HTTP response (of any
status), starting from a history within the cap, the stored history is the
reversed entry list truncated to 20; in particular after more than 20 such
calls its length is exactly 20. Calls failing at a gate or on transport
insert their error entry without truncating, so sequences of such calls
can leave more than 20 entries. -/
theorem c5_history_cap_amended (urls : List (String × String))
    (wt url : String) (p : Payload) (envs : List Env) (s : WState)
    (hurl : urls.lookup wt = some url)
    (hlen : s.responses.length ≤ history_cap)
    (hall : ∀ env ∈ envs, respondsFirst env wt p) :
    (dispatchFold urls wt p envs s).responses =
      ((envs.map (fun env => firstResponseEntry env wt p)).reverse ++
        s.responses).take history_cap ∧
    (history_cap < envs.length →
      (dispatchFold urls wt p envs s).responses.length = history_cap) := by
  have h1 := dispatchFold_responses urls wt url p envs s hurl hlen hall
  refine ⟨h1, fun hgt => ?_⟩
  rw [h1, List.length_take]
  have : history_cap ≤
      ((envs.map (fun env => firstResponseEntry env wt p)).reverse ++
        s.responses).length := by
    simp only [List.length_append, List.length_reverse, List.length_map]
    omega
  omega

/-- Witness for C5 amended: 25 dispatches that each get a 200 response,
starting from the empty history, leave exactly 20 entries. -/
theorem c5_history_cap_amended_witness :
    (dispatchFold webhook_urls "audio" samplePayload
        (List.replicate 25 envOk) initialWState).responses.length =
      history_cap :=
  (c5_history_cap_amended webhook_urls "audio"
    "https://agentonline-u29564.vm.elestio.app/webhook-test/audio-files"
    samplePayload (List.replicate 25 envOk) initialWState rfl (by decide)
    (fun env he => by
      rw [List.eq_of_mem_replicate he]
      exact ⟨rfl, rfl, rfl, by decide, 200, "ok", rfl⟩)).2 (by decide)

/-- C6: send_to_multiple_webhooks validates the payload once up front:
when that validation fails it returns the same failure result for every
requested endpoint, consults no other collaborator, makes no send attempt
and leaves the session state unchanged; when the payload is valid it
dispatches to each endpoint independently, so that with endpoint A timing
out on every attempt while endpoint B answers 200 on its first attempt,
the aggregated results record failure for A and success for B. -/
theorem c6_fan_out (urls : List (String × String)) (env : Env)
    (wts : List String) (p : Payload) (s : WState)
    (A B urlA urlB textB : String)
    (hwts : wts ≠ []) :
    (env.validOk = false →
      send_to_multiple_webhooks urls env wts p s =
        (.results (wts.map fun wt =>
            (wt, ⟨false, fan_validation_message env.validErrors,
                  .validationFailure env.validErrors⟩)),
         [.validate], s)) ∧
    (env.validOk = true → env.rateOk = true →
      (env.sanitize p).encodable = true →
      ¬((env.sanitize p).size > max_payload_size) →
      urls.lookup A = some urlA → urls.lookup B = some urlB →
      A ∈ content_types → B ∈ content_types → A ≠ B →
      (∀ j, env.transport A j = .timeout) →
      env.transport B 0 = .response 200 textB →
      fanSuccess (send_to_multiple_webhooks urls env [A, B] p s).1 A =
        some false ∧
      fanSuccess (send_to_multiple_webhooks urls env [A, B] p s).1 B =
        some true) := by
  constructor
  · intro h
    simp [send_to_multiple_webhooks, hwts, h]
  · intro hvalid hrate henc hsize hurlA hurlB hmemA hmemB hAB htrA htrB
    have hA := send_all_timeout urls env A urlA p s hurlA hrate hvalid henc
      hsize htrA
    have hB := send_first_ok urls env B urlB p
      ⟨timeoutEntry A :: s.responses,
       bumpErrors (bumpSent s.stats A) A⟩ textB hurlB hrate hvalid henc
      hsize htrB
    have hfold : (send_to_multiple_webhooks urls env [A, B] p s).1 =
        .results [(A, ⟨false, timeout_message, .entry (timeoutEntry A)⟩),
          (B, ⟨true, success_message B,
            .entry (responseEntry B 200 textB (env.sanitize p).size 0)⟩)] := by
      simp only [send_to_multiple_webhooks, hvalid]
      simp [List.foldl, hmemA, hmemB, hA, hB]
    rw [hfold]
    constructor
    · simp [fanSuccess, List.lookup]
    · have hBA : (B == A) = false := beq_eq_false_iff_ne.mpr (Ne.symm hAB)
      simp [fanSuccess, List.lookup, hBA]

/-- An environment whose transport times out for the audio endpoint and
answers 200 for every other endpoint. -/
def envAudioFailsOthersOk : Env :=
  { envOk with transport := fun t _ =>
      if t = "audio" then .timeout else .response 200 "ok" }

/-- Witness for C6: fanning out to audio (always timing out) and books
(answering 200) records failure for audio and success for books. -/
theorem c6_fan_out_witness :
    fanSuccess (send_to_multiple_webhooks webhook_urls envAudioFailsOthersOk
        ["audio", "books"] samplePayload initialWState).1 "audio" =
      some false ∧
    fanSuccess (send_to_multiple_webhooks webhook_urls envAudioFailsOthersOk
        ["audio", "books"] samplePayload initialWState).1 "books" =
      some true :=
  (c6_fan_out webhook_urls envAudioFailsOthersOk ["audio", "books"]
    samplePayload initialWState "audio" "books"
    "https://agentonline-u29564.vm.elestio.app/webhook-test/audio-files"
    "https://agentonline-u29564.vm.elestio.app/webhook-test/books-content"
    "ok" (by decide)).2 rfl rfl rfl (by decide) rfl rfl (by decide)
    (by decide) (by decide) (fun _j => rfl) rfl

/-- C8 (code bug): send_to_webhook is not total. The URL lookup at
record.py line 415 sits before the try block, so a webhook type with no
configured URL makes the call raise KeyError to its caller instead of
returning a (success, message, result) triple; and when the transport
raises an exception outside the specifically handled classes, the handler
ladder reaches the except clause naming json.JSONEncodeError, an attribute
the json module does not have, so an AttributeError escapes, again with no
structured triple and with no history entry recorded. -/
theorem c8_dispatch_raises :
    send_to_webhook webhook_urls envOk "missing" samplePayload
        initialWState = (.error (.keyError "missing"), [], initialWState) ∧
    (send_to_webhook webhook_urls
        { envOk with transport := fun _ _ => .otherExc "TooManyRedirects" }
        "audio" samplePayload initialWState).1 =
      .error (.attributeError "JSONEncodeError") :=
  ⟨rfl, rfl⟩
